import Mathlib

/-
  Verification of the static-replication pricing algorithm for a European
  single-barrier FX option, as implemented in
  OREData/ored/portfolio/fxeuropeanbarrieroption.cpp.

  The embedding models the replication selector (lines 121-207 of the
  source) as a pure function from the trade terms to a composite, the
  precondition checks and trade assembly of build (lines 42-53 and
  209-226) as a function into the Except monad, and the XML parsing of
  fromXML (lines 234-244). Real-valued quantities are rationals; dates
  are naturals. Currencies stay opaque strings; the external parsers for
  currency, option type, barrier type and position are reflected by
  keeping those fields already typed.
-/

set_option autoImplicit false

namespace ORE

/-- Option type of a payoff: call or put (QuantLib Option.Type). -/
inductive OptionType where
  | Call
  | Put
  deriving DecidableEq, Repr

/-- Barrier type (QuantLib Barrier.Type): up/down crossed with in/out. -/
inductive BarrierKind where
  | UpIn
  | UpOut
  | DownIn
  | DownOut
  deriving DecidableEq, Repr

/-- Position direction of the trade (QuantLib Position.Type). -/
inductive PositionType where
  | Long
  | Short
  deriving DecidableEq, Repr

/-- Terminal payoff descriptions: PlainVanillaPayoff(type, strike) and
CashOrNothingPayoff(type, level, cash). -/
inductive Payoff where
  | vanilla : OptionType → ℚ → Payoff
  | cashOrNothing : OptionType → ℚ → ℚ → Payoff
  deriving DecidableEq, Repr

/-- The four instrument objects the selector can add to the composite:
the rebate-payer digital, the vanilla struck at K, the vanilla struck at
the barrier level B, and the gap digital at B. -/
inductive LeafKind where
  | rebateLeaf
  | vanillaK
  | vanillaB
  | digitalGap
  deriving DecidableEq, Repr

/-- Source line 131: payoffVanillaK = PlainVanillaPayoff(type, strike). -/
def payoffVanillaK (type : OptionType) (strike : ℚ) : Payoff :=
  Payoff.vanilla type strike

/-- Source line 133: payoffVanillaB = PlainVanillaPayoff(type, level). -/
def payoffVanillaB (type : OptionType) (level : ℚ) : Payoff :=
  Payoff.vanilla type level

/-- Source line 135: payoffDigital =
CashOrNothingPayoff(type, level, fabs(level - strike)). -/
def payoffDigital (type : OptionType) (strike level : ℚ) : Payoff :=
  Payoff.cashOrNothing type level |level - strike|

/-- Source lines 141-148: the option type of the rebate-payer digital is
Put for UpIn and DownOut barriers, Call for UpOut and DownIn barriers. -/
def rebateOptionType : BarrierKind → OptionType
  | BarrierKind.UpIn => OptionType.Put
  | BarrierKind.DownOut => OptionType.Put
  | BarrierKind.UpOut => OptionType.Call
  | BarrierKind.DownIn => OptionType.Call

/-- Source lines 141-148: rebatePayoff =
CashOrNothingPayoff(rebate type, level, rebate). -/
def rebatePayoff (bk : BarrierKind) (level rebate : ℚ) : Payoff :=
  Payoff.cashOrNothing (rebateOptionType bk) level rebate

/-- The payoff carried by each of the four instruments built in source
lines 131-149, as a function of the trade terms. -/
def leafPayoff (type : OptionType) (bk : BarrierKind)
    (strike level rebate : ℚ) : LeafKind → Payoff
  | LeafKind.rebateLeaf => rebatePayoff bk level rebate
  | LeafKind.vanillaK => payoffVanillaK type strike
  | LeafKind.vanillaB => payoffVanillaB type level
  | LeafKind.digitalGap => payoffDigital type strike level

/-- Source lines 167-207: the composite built by the replication
selector, as the ordered list of (instrument, multiplier) pairs added to
the CompositeInstrument. add with one argument uses multiplier 1. -/
def buildComposite (type : OptionType) (bk : BarrierKind)
    (strike level : ℚ) : List (LeafKind × ℚ) :=
  (LeafKind.rebateLeaf, 1) ::
    (match type with
     | OptionType.Call =>
       match bk with
       | BarrierKind.UpIn | BarrierKind.DownOut =>
         if level > strike then
           [(LeafKind.vanillaB, 1), (LeafKind.digitalGap, 1)]
         else
           [(LeafKind.vanillaK, 1)]
       | BarrierKind.UpOut | BarrierKind.DownIn =>
         if level > strike then
           [(LeafKind.vanillaK, 1), (LeafKind.vanillaB, -1),
            (LeafKind.digitalGap, -1)]
         else
           []
     | OptionType.Put =>
       match bk with
       | BarrierKind.UpIn | BarrierKind.DownOut =>
         if level > strike then
           []
         else
           [(LeafKind.vanillaK, 1), (LeafKind.vanillaB, -1),
            (LeafKind.digitalGap, -1)]
       | BarrierKind.UpOut | BarrierKind.DownIn =>
         if level > strike then
           [(LeafKind.vanillaK, 1)]
         else
           [(LeafKind.vanillaB, 1), (LeafKind.digitalGap, 1)])

/-- The B > K column of the table in the spec, section 4.4 step 3,
transcribed from the spec text for comparison with the selector. -/
def specColumnGT : OptionType → BarrierKind → List (LeafKind × ℚ)
  | OptionType.Call, BarrierKind.UpIn
  | OptionType.Call, BarrierKind.DownOut =>
      [(LeafKind.vanillaB, 1), (LeafKind.digitalGap, 1)]
  | OptionType.Call, BarrierKind.UpOut
  | OptionType.Call, BarrierKind.DownIn =>
      [(LeafKind.vanillaK, 1), (LeafKind.vanillaB, -1),
       (LeafKind.digitalGap, -1)]
  | OptionType.Put, BarrierKind.UpIn
  | OptionType.Put, BarrierKind.DownOut => []
  | OptionType.Put, BarrierKind.UpOut
  | OptionType.Put, BarrierKind.DownIn => [(LeafKind.vanillaK, 1)]

/-- The B ≤ K column of the table in the spec, section 4.4 step 3,
transcribed from the spec text for comparison with the selector. -/
def specColumnLE : OptionType → BarrierKind → List (LeafKind × ℚ)
  | OptionType.Call, BarrierKind.UpIn
  | OptionType.Call, BarrierKind.DownOut => [(LeafKind.vanillaK, 1)]
  | OptionType.Call, BarrierKind.UpOut
  | OptionType.Call, BarrierKind.DownIn => []
  | OptionType.Put, BarrierKind.UpIn
  | OptionType.Put, BarrierKind.DownOut =>
      [(LeafKind.vanillaK, 1), (LeafKind.vanillaB, -1),
       (LeafKind.digitalGap, -1)]
  | OptionType.Put, BarrierKind.UpOut
  | OptionType.Put, BarrierKind.DownIn =>
      [(LeafKind.vanillaB, 1), (LeafKind.digitalGap, 1)]

/-- The non-rebate leaves the spec table selects, with its strict
B > K versus B ≤ K tie-break. -/
def specTableLeaves (type : OptionType) (bk : BarrierKind)
    (strike level : ℚ) : List (LeafKind × ℚ) :=
  if level > strike then specColumnGT type bk else specColumnLE type bk

/-- OptionData fields read by build: long/short indicator, call/put
indicator, style string, exercise date list. -/
structure OptionData where
  longShort : PositionType
  callPut : OptionType
  style : String
  exerciseDates : List ℕ
  deriving DecidableEq, Repr

/-- BarrierData fields read by build: barrier type, level list, rebate,
style string. -/
structure BarrierData where
  barrierType : BarrierKind
  levels : List ℚ
  rebate : ℚ
  style : String
  deriving DecidableEq, Repr

/-- The trade fields of FxEuropeanBarrierOption that build reads. -/
structure FxEuropeanBarrierOption where
  option : OptionData
  barrier : BarrierData
  tradeActions : List String
  boughtCurrency : String
  soldCurrency : String
  boughtAmount : ℚ
  soldAmount : ℚ
  deriving DecidableEq, Repr

/-- What a successful build produces: the composite with the terms that
fix each leaf payoff, the final instrument multiplier, and the reported
currency, notional and maturity fields (source lines 209-226). -/
structure BuildResult where
  optionType : OptionType
  barrierType : BarrierKind
  strike : ℚ
  level : ℚ
  rebate : ℚ
  composite : List (LeafKind × ℚ)
  multiplier : ℚ
  npvCurrency : String
  notional : ℚ
  notionalCurrency : String
  maturity : ℕ
  deriving DecidableEq, Repr

/-- Source lines 43-47: the five QL_REQUIRE precondition checks of
build, in source order. -/
def checkPreconditions (t : FxEuropeanBarrierOption) : Except String Unit :=
  if t.option.style ≠ "European" then
    Except.error ("Option Style unknown: " ++ t.option.style)
  else if t.option.exerciseDates.length ≠ 1 then
    Except.error "Invalid number of excercise dates"
  else if t.barrier.levels.length ≠ 1 then
    Except.error "Invalid number of barrier levels"
  else if ¬(t.barrier.style = "" ∨ t.barrier.style = "European") then
    Except.error "Only european barrier style suppported"
  else if t.tradeActions ≠ [] then
    Except.error "TradeActions not supported for FxEuropeanBarrierOption"
  else
    Except.ok ()

/-- Source lines 49-232 after the precondition checks: the rebate check
(line 53), strike = soldAmount / boughtAmount (line 121), the composite
(lines 167-207), and the trade assembly (lines 209-226). The last
premium settlement date returned by the external addPremiums call is
passed in as a parameter. -/
def buildCore (t : FxEuropeanBarrierOption) (lastPremiumDate : ℕ) :
    Except String BuildResult :=
  let level := t.barrier.levels.headD 0
  let rebate := t.barrier.rebate
  if rebate < 0 then
    Except.error "Rebate must be non-negative"
  else
    let strike := t.soldAmount / t.boughtAmount
    let type := t.option.callPut
    let expiryDate := t.option.exerciseDates.headD 0
    let bk := t.barrier.barrierType
    let bsInd : ℚ := if t.option.longShort = PositionType.Long then 1 else -1
    Except.ok
      { optionType := type
        barrierType := bk
        strike := strike
        level := level
        rebate := rebate
        composite := buildComposite type bk strike level
        multiplier := t.boughtAmount * bsInd
        npvCurrency := t.soldCurrency
        notional := t.soldAmount
        notionalCurrency := t.soldCurrency
        maturity := max lastPremiumDate expiryDate }

/-- Source lines 38-232: build runs the precondition checks and, when
they pass, the replication and assembly. -/
def build (t : FxEuropeanBarrierOption) (lastPremiumDate : ℕ) :
    Except String BuildResult :=
  match checkPreconditions t with
  | Except.error e => Except.error e
  | Except.ok _ => buildCore t lastPremiumDate

/-- The raw fields of a BarrierData XML node before validation. -/
structure XmlBarrierNode where
  barrierType : BarrierKind
  levels : List ℚ
  rebate : ℚ
  style : String
  deriving DecidableEq, Repr

/-- Modelled from the spec: BarrierData XML parsing is not under src/
(fromXML at source line 239 delegates to it). Per the spec, the
configuration schema requires a non-negative rebate (section 6), a
negative rebate is a MalformedConfiguration error (sections 7 and 8),
and validation errors are detected at configuration-parse time
(section 7 propagation policy). -/
def barrierDataFromXML (n : XmlBarrierNode) : Except String BarrierData :=
  if n.rebate < 0 then
    Except.error "MalformedConfiguration: rebate must be non-negative"
  else
    Except.ok
      { barrierType := n.barrierType
        levels := n.levels
        rebate := n.rebate
        style := n.style }

/-- The children of the FxEuropeanBarrierOptionData XML node read by
fromXML (source lines 236-243); required scalar children may be
missing. Option data parsing is kept already typed. -/
structure XmlFxNode where
  optionData : OptionData
  barrierNode : XmlBarrierNode
  boughtCurrency : Option String
  soldCurrency : Option String
  boughtAmount : Option ℚ
  soldAmount : Option ℚ
  deriving DecidableEq, Repr

/-- Source lines 234-244: fromXML requires the
FxEuropeanBarrierOptionData node, parses the option and barrier data,
and reads the required bought/sold currencies and amounts. The trade
actions parsed by the external Trade base parsing are passed in. -/
def fromXML (node : Option XmlFxNode) (tradeActions : List String) :
    Except String FxEuropeanBarrierOption :=
  match node with
  | none => Except.error "No FxEuropeanBarrierOptionData Node"
  | some n =>
    match barrierDataFromXML n.barrierNode with
    | Except.error e => Except.error e
    | Except.ok b =>
      match n.boughtCurrency, n.soldCurrency, n.boughtAmount, n.soldAmount with
      | some bc, some sc, some ba, some sa =>
        Except.ok
          { option := n.optionData
            barrier := b
            tradeActions := tradeActions
            boughtCurrency := bc
            soldCurrency := sc
            boughtAmount := ba
            soldAmount := sa }
      | _, _, _, _ =>
        Except.error "MalformedConfiguration: missing required field"

/-- An opaque pricing model handle, identified by a number. -/
structure Engine where
  id : ℕ
  deriving DecidableEq, Repr

/-- A priceable leaf: a payoff, a shared expiry, and the optionally
attached pricing model. -/
structure PriceableLeaf where
  payoff : Payoff
  expiry : ℕ
  engine : Option Engine
  deriving DecidableEq, Repr

/-- Modelled from the spec: the leaf mutation contract of
setPricingEngine lives in the external instrument library, not under
src/ (build only calls it, source lines 162-165). Per the spec
(section 4.2), model attachment is the only allowed post-construction
mutation and is write-once: attaching twice is a DuplicateEngine
error. -/
def attachEngine (leaf : PriceableLeaf) (e : Engine) :
    Except String PriceableLeaf :=
  match leaf.engine with
  | some _ => Except.error "DuplicateEngine"
  | none => Except.ok { leaf with engine := some e }

/-- A concrete well-formed trade: the concrete scenario of spec
section 8 (Call, UpOut, K = 100, B = 120, R = 5). -/
def goodTrade : FxEuropeanBarrierOption :=
  { option :=
      { longShort := PositionType.Long
        callPut := OptionType.Call
        style := "European"
        exerciseDates := [100] }
    barrier :=
      { barrierType := BarrierKind.UpOut
        levels := [120]
        rebate := 5
        style := "European" }
    tradeActions := []
    boughtCurrency := "EUR"
    soldCurrency := "USD"
    boughtAmount := 1
    soldAmount := 100 }

/-- The same trade with two exercise dates, violating a precondition. -/
def badTrade : FxEuropeanBarrierOption :=
  { goodTrade with option := { goodTrade.option with exerciseDates := [100, 200] } }

/-- The build result of the good trade with last premium date 7. -/
def goodResult : BuildResult :=
  { optionType := OptionType.Call
    barrierType := BarrierKind.UpOut
    strike := 100
    level := 120
    rebate := 5
    composite :=
      [(LeafKind.rebateLeaf, 1), (LeafKind.vanillaK, 1),
       (LeafKind.vanillaB, -1), (LeafKind.digitalGap, -1)]
    multiplier := 1
    npvCurrency := "USD"
    notional := 100
    notionalCurrency := "USD"
    maturity := 100 }

/-- A concrete XML node carrying a negative rebate. -/
def badXml : XmlFxNode :=
  { optionData := goodTrade.option
    barrierNode :=
      { barrierType := BarrierKind.UpIn
        levels := [120]
        rebate := -1
        style := "" }
    boughtCurrency := some "EUR"
    soldCurrency := some "USD"
    boughtAmount := some 1
    soldAmount := some 100 }

/-- A concrete leaf with no engine attached yet. -/
def leafBare : PriceableLeaf :=
  { payoff := Payoff.vanilla OptionType.Call 100
    expiry := 100
    engine := none }

/-- The bare leaf after an engine has been attached. -/
def leafEngined : PriceableLeaf :=
  { leafBare with engine := some { id := 1 } }

/-- Helper: the precondition checks succeed exactly when the five
conditions of source lines 43-47 all hold. -/
theorem checkPreconditions_ok_iff (t : FxEuropeanBarrierOption) :
    checkPreconditions t = Except.ok () ↔
      (t.option.style = "European" ∧ t.option.exerciseDates.length = 1 ∧
       t.barrier.levels.length = 1 ∧
       (t.barrier.style = "" ∨ t.barrier.style = "European") ∧
       t.tradeActions = []) := by
  unfold checkPreconditions
  split_ifs with h1 h2 h3 h4 h5 <;> simp_all

/-- C1: for every option type, barrier kind, strike K > 0 and barrier
level B > 0, the non-rebate leaves the selector adds to the composite
are exactly those of the spec table, including the strict B > K versus
B ≤ K tie-break. -/
theorem replication_matches_spec_table (type : OptionType) (bk : BarrierKind)
    (strike level : ℚ) (hK : 0 < strike) (hB : 0 < level) :
    (buildComposite type bk strike level).tail =
      specTableLeaves type bk strike level := by
  cases type <;> cases bk <;>
    simp only [buildComposite, specTableLeaves, specColumnGT, specColumnLE,
      List.tail_cons] <;>
    split_ifs <;> rfl

/-- C1 witness: the table holds at the concrete input Call, UpIn,
K = 100, B = 120. -/
theorem replication_matches_spec_table_witness :
    (buildComposite OptionType.Call BarrierKind.UpIn 100 120).tail =
      specTableLeaves OptionType.Call BarrierKind.UpIn 100 120 :=
  replication_matches_spec_table OptionType.Call BarrierKind.UpIn 100 120
    (by norm_num) (by norm_num)

/-- C2: the rebate-payer digital is a cash-or-nothing payoff at level B
with cash R, of Put type for UpIn and DownOut and Call type for UpOut
and DownIn; it is always the first leaf of the composite with
multiplier +1, so the composite is never empty. -/
theorem rebate_leaf_always_first (type : OptionType) (bk : BarrierKind)
    (strike level rebate : ℚ) :
    (buildComposite type bk strike level).head? =
      some (LeafKind.rebateLeaf, 1) ∧
    leafPayoff type bk strike level rebate LeafKind.rebateLeaf =
      Payoff.cashOrNothing (rebateOptionType bk) level rebate ∧
    rebateOptionType BarrierKind.UpIn = OptionType.Put ∧
    rebateOptionType BarrierKind.DownOut = OptionType.Put ∧
    rebateOptionType BarrierKind.UpOut = OptionType.Call ∧
    rebateOptionType BarrierKind.DownIn = OptionType.Call ∧
    buildComposite type bk strike level ≠ [] := by
  refine ⟨rfl, rfl, rfl, rfl, rfl, rfl, ?_⟩
  simp [buildComposite]

/-- C3: when B equals K the selector takes the B ≤ K column for every
option type and barrier kind; in particular Call/UpIn yields the rebate
leaf plus +vanillaK, Put/UpOut yields the rebate leaf plus +vanillaB
and +digitalGap, and the digital gap cash is 0. -/
theorem tie_break_routes_to_le_column (type : OptionType) (bk : BarrierKind)
    (strike : ℚ) :
    (buildComposite type bk strike strike).tail = specColumnLE type bk ∧
    buildComposite OptionType.Call BarrierKind.UpIn strike strike =
      [(LeafKind.rebateLeaf, 1), (LeafKind.vanillaK, 1)] ∧
    buildComposite OptionType.Put BarrierKind.UpOut strike strike =
      [(LeafKind.rebateLeaf, 1), (LeafKind.vanillaB, 1),
       (LeafKind.digitalGap, 1)] ∧
    payoffDigital OptionType.Call strike strike =
      Payoff.cashOrNothing OptionType.Call strike 0 ∧
    payoffDigital OptionType.Put strike strike =
      Payoff.cashOrNothing OptionType.Put strike 0 := by
  refine ⟨?_, ?_, ?_, ?_, ?_⟩
  · cases type <;> cases bk <;> simp [buildComposite, specColumnLE]
  · simp [buildComposite]
  · simp [buildComposite]
  · simp [payoffDigital]
  · simp [payoffDigital]

/-- C4: the three payoff templates built before branching are the gap
digital of the outer option type at level B with non-negative cash
equal to the absolute gap between B and K, and the two plain vanilla
payoffs of the outer option type struck at K and at B. -/
theorem payoff_templates_match (type : OptionType) (bk : BarrierKind)
    (strike level rebate : ℚ) :
    payoffDigital type strike level =
      Payoff.cashOrNothing type level |level - strike| ∧
    0 ≤ |level - strike| ∧
    payoffVanillaK type strike = Payoff.vanilla type strike ∧
    payoffVanillaB type level = Payoff.vanilla type level ∧
    leafPayoff type bk strike level rebate LeafKind.digitalGap =
      Payoff.cashOrNothing type level |level - strike| ∧
    leafPayoff type bk strike level rebate LeafKind.vanillaK =
      Payoff.vanilla type strike ∧
    leafPayoff type bk strike level rebate LeafKind.vanillaB =
      Payoff.vanilla type level :=
  ⟨rfl, abs_nonneg _, rfl, rfl, rfl, rfl, rfl⟩

/-- C9: in every composite the selector can produce, the vanillaK leaf
only ever carries multiplier +1, and the vanillaB leaf and digitalGap
leaf occur with a given multiplier exactly together. -/
theorem composite_sign_invariant (type : OptionType) (bk : BarrierKind)
    (strike level m : ℚ) :
    ((LeafKind.vanillaK, m) ∈ buildComposite type bk strike level → m = 1) ∧
    ((LeafKind.vanillaB, m) ∈ buildComposite type bk strike level ↔
      (LeafKind.digitalGap, m) ∈ buildComposite type bk strike level) := by
  cases type <;> cases bk <;>
    simp only [buildComposite] <;> split_ifs <;> simp

/-- C9 witness: at Call, UpIn, K = 100, B = 120 the vanillaK
implication is discharged at multiplier 1 and the vanillaB and
digitalGap memberships coincide. -/
theorem composite_sign_invariant_witness :
    (1 : ℚ) = 1 ∧
    ((LeafKind.vanillaB, (1 : ℚ)) ∈
        buildComposite OptionType.Call BarrierKind.UpIn 100 120 ↔
      (LeafKind.digitalGap, (1 : ℚ)) ∈
        buildComposite OptionType.Call BarrierKind.UpIn 100 120) :=
  ⟨(composite_sign_invariant OptionType.Call BarrierKind.UpIn 120 100 1).1
      (by decide),
   (composite_sign_invariant OptionType.Call BarrierKind.UpIn 100 120 1).2⟩

/-- C5: build errors whenever any of the five preconditions is
violated, and runs the replication core unchanged when all of them
hold. -/
theorem build_precondition_checks (t : FxEuropeanBarrierOption) (lpd : ℕ) :
    ((t.option.style ≠ "European" ∨ t.option.exerciseDates.length ≠ 1 ∨
      t.barrier.levels.length ≠ 1 ∨
      ¬(t.barrier.style = "" ∨ t.barrier.style = "European") ∨
      t.tradeActions ≠ []) →
      ∃ e, build t lpd = Except.error e) ∧
    ((t.option.style = "European" ∧ t.option.exerciseDates.length = 1 ∧
      t.barrier.levels.length = 1 ∧
      (t.barrier.style = "" ∨ t.barrier.style = "European") ∧
      t.tradeActions = []) →
      build t lpd = buildCore t lpd) := by
  constructor
  · intro h
    have hne : checkPreconditions t ≠ Except.ok () := by
      intro hok
      rw [checkPreconditions_ok_iff] at hok
      tauto
    unfold build
    cases hc : checkPreconditions t with
    | error e => exact ⟨e, rfl⟩
    | ok u => cases u; exact absurd hc hne
  · intro h
    have hok : checkPreconditions t = Except.ok () :=
      (checkPreconditions_ok_iff t).2 h
    unfold build
    rw [hok]

/-- C5 witness: a trade with two exercise dates makes build fail, and
the well-formed trade passes the checks and proceeds to the core. -/
theorem build_precondition_checks_witness :
    (∃ e, build badTrade 0 = Except.error e) ∧
    build goodTrade 0 = buildCore goodTrade 0 :=
  ⟨(build_precondition_checks badTrade 0).1 (by decide),
   (build_precondition_checks goodTrade 0).2 (by decide)⟩

/-- C8: a successful build reports multiplier boughtAmount times +1 for
long and -1 for short, NPV and notional currency both equal to the sold
currency, notional equal to the sold amount, and maturity equal to the
maximum of the last premium date and the expiry date. -/
theorem trade_assembly_fields (t : FxEuropeanBarrierOption) (lpd : ℕ)
    (r : BuildResult) (h : build t lpd = Except.ok r) :
    r.multiplier = t.boughtAmount *
      (if t.option.longShort = PositionType.Long then 1 else -1) ∧
    r.npvCurrency = t.soldCurrency ∧
    r.notionalCurrency = t.soldCurrency ∧
    r.notional = t.soldAmount ∧
    r.maturity = max lpd (t.option.exerciseDates.headD 0) := by
  unfold build at h
  cases hc : checkPreconditions t with
  | error e => rw [hc] at h; cases h
  | ok u =>
    rw [hc] at h
    by_cases hr : t.barrier.rebate < 0
    · simp [buildCore, hr] at h
    · simp only [buildCore, hr, if_false] at h
      cases h
      simp

/-- C8 witness: the assembly fields at the good trade with last premium
date 7. -/
theorem trade_assembly_fields_witness :
    goodResult.multiplier = goodTrade.boughtAmount *
      (if goodTrade.option.longShort = PositionType.Long then 1 else -1) ∧
    goodResult.npvCurrency = goodTrade.soldCurrency ∧
    goodResult.notionalCurrency = goodTrade.soldCurrency ∧
    goodResult.notional = goodTrade.soldAmount ∧
    goodResult.maturity = max 7 (goodTrade.option.exerciseDates.headD 0) :=
  trade_assembly_fields goodTrade 7 goodResult (by
    norm_num [build, checkPreconditions, buildCore, goodTrade, goodResult,
      buildComposite])

/-- C10: when boughtAmount is non-zero, the strike used by every payoff
of the replication is soldAmount divided by boughtAmount, and build
performs no check on boughtAmount: replacing it by any rational,
including zero or a negative value, leaves build succeeding. -/
theorem strike_is_sold_over_bought (t : FxEuropeanBarrierOption) (lpd : ℕ)
    (r : BuildResult) (q : ℚ) (hb : t.boughtAmount ≠ 0)
    (h : build t lpd = Except.ok r) :
    r.strike = t.soldAmount / t.boughtAmount ∧
    leafPayoff r.optionType r.barrierType r.strike r.level r.rebate
        LeafKind.vanillaK =
      Payoff.vanilla r.optionType (t.soldAmount / t.boughtAmount) ∧
    leafPayoff r.optionType r.barrierType r.strike r.level r.rebate
        LeafKind.digitalGap =
      Payoff.cashOrNothing r.optionType r.level
        |r.level - t.soldAmount / t.boughtAmount| ∧
    (build { t with boughtAmount := q } lpd).isOk = true := by
  have hcp : checkPreconditions { t with boughtAmount := q } =
      checkPreconditions t := rfl
  unfold build at h ⊢
  cases hc : checkPreconditions t with
  | error e => rw [hc] at h; cases h
  | ok u =>
    rw [hc] at h
    rw [hcp, hc]
    by_cases hr : t.barrier.rebate < 0
    · simp [buildCore, hr] at h
    · have hr2 : ¬(({ t with boughtAmount := q } :
          FxEuropeanBarrierOption).barrier.rebate < 0) := hr
      simp only [buildCore, hr, if_false] at h
      cases h
      refine ⟨rfl, rfl, rfl, ?_⟩
      simp [buildCore, hr2, Except.isOk, Except.toBool]

/-- C10 witness: at the good trade the strike is 100 / 1, and setting
boughtAmount to 0 still lets build succeed. -/
theorem strike_is_sold_over_bought_witness :
    goodResult.strike = goodTrade.soldAmount / goodTrade.boughtAmount ∧
    leafPayoff goodResult.optionType goodResult.barrierType goodResult.strike
        goodResult.level goodResult.rebate LeafKind.vanillaK =
      Payoff.vanilla goodResult.optionType
        (goodTrade.soldAmount / goodTrade.boughtAmount) ∧
    leafPayoff goodResult.optionType goodResult.barrierType goodResult.strike
        goodResult.level goodResult.rebate LeafKind.digitalGap =
      Payoff.cashOrNothing goodResult.optionType goodResult.level
        |goodResult.level - goodTrade.soldAmount / goodTrade.boughtAmount| ∧
    (build { goodTrade with boughtAmount := 0 } 7).isOk = true :=
  strike_is_sold_over_bought goodTrade 7 goodResult 0 (by decide) (by
    norm_num [build, checkPreconditions, buildCore, goodTrade, goodResult,
      buildComposite])

/-- C6: a negative rebate is rejected during configuration parsing with
a MalformedConfiguration error, before build runs. -/
theorem negative_rebate_rejected_at_parse (n : XmlFxNode)
    (tradeActions : List String) (h : n.barrierNode.rebate < 0) :
    fromXML (some n) tradeActions =
      Except.error "MalformedConfiguration: rebate must be non-negative" := by
  unfold fromXML barrierDataFromXML
  simp [h]

/-- C6 witness: the concrete node with rebate -1 is rejected by
fromXML. -/
theorem negative_rebate_rejected_at_parse_witness :
    fromXML (some badXml) [] =
      Except.error "MalformedConfiguration: rebate must be non-negative" :=
  negative_rebate_rejected_at_parse badXml [] (by decide)

/-- C7: engine attachment fails with DuplicateEngine on a leaf that
already has an engine, and a successful attachment sets the engine and
changes nothing else, so a second attachment fails. -/
theorem engine_attachment_write_once (leaf : PriceableLeaf) (e e2 g : Engine) :
    (leaf.engine = some g →
      attachEngine leaf e = Except.error "DuplicateEngine") ∧
    (∀ leaf2, attachEngine leaf e = Except.ok leaf2 →
      leaf2.payoff = leaf.payoff ∧ leaf2.expiry = leaf.expiry ∧
      leaf2.engine = some e ∧
      attachEngine leaf2 e2 = Except.error "DuplicateEngine") := by
  constructor
  · intro hg
    unfold attachEngine
    rw [hg]
  · intro leaf2 h
    unfold attachEngine at h ⊢
    cases hle : leaf.engine with
    | some x => rw [hle] at h; cases h
    | none =>
      rw [hle] at h
      cases h
      exact ⟨rfl, rfl, rfl, rfl⟩

/-- C7 witness: attaching to the already-engined leaf fails, and
attaching to the bare leaf yields the engined leaf unchanged except for
its engine, after which re-attachment fails. -/
theorem engine_attachment_write_once_witness :
    attachEngine leafEngined { id := 2 } =
      Except.error "DuplicateEngine" ∧
    (leafEngined.payoff = leafBare.payoff ∧
     leafEngined.expiry = leafBare.expiry ∧
     leafEngined.engine = some { id := 1 } ∧
     attachEngine leafEngined { id := 2 } =
       Except.error "DuplicateEngine") :=
  ⟨(engine_attachment_write_once leafEngined { id := 2 } { id := 2 }
      { id := 1 }).1 rfl,
   (engine_attachment_write_once leafBare { id := 1 } { id := 2 }
      { id := 0 }).2 leafEngined rfl⟩

end ORE
